import Mathlib

/-!
# Verification development for the Brahma Muhurat calculator

A shallow embedding of the computational core of the `bhram-muhurat`
JavaScript repository, together with theorems settling the specification
claims about it.

Embedded components (with their source locations):
* the geographic validators `validateCoordinates` / `validateElevation`
  (`src/utils/geo.js`);
* the muhurat window calculator `_calculateMuhuratTimes` and the
  day-length helper `calculateDayLength`
  (`src/core/muhurat.js`, `src/core/astronomical.js`);
* the batch driver `calculateBatch` (`src/core/muhurat.js`);
* the precision-tiered sunrise strategies
  (`src/core/astronomical.js`);
* the atmospheric refraction models (`src/core/refraction.js`).

JavaScript numbers are modelled as `JSNum` (an exact rational or `NaN`);
the embedded validation and window code only ever produces values that a
double represents exactly, so exact rationals are faithful there.  The
trigonometric refraction and sunrise-correction formulas are modelled
over the reals.  JavaScript exceptions are modelled with `Except`.
-/

/-- A JavaScript number: either `NaN` or a finite value (modelled as an
exact rational; the embedded code never produces infinities). -/
inductive JSNum where
  | nan : JSNum
  | num (q : ℚ) : JSNum
  deriving DecidableEq, Repr

namespace JSNum

/-- JS `<` comparison: any comparison with `NaN` is `false`. -/
def ltB : JSNum → JSNum → Bool
  | num a, num b => decide (a < b)
  | _, _ => false

/-- JS addition; `NaN` propagates. -/
def add : JSNum → JSNum → JSNum
  | num a, num b => num (a + b)
  | _, _ => nan

/-- JS subtraction; `NaN` propagates. -/
def sub : JSNum → JSNum → JSNum
  | num a, num b => num (a - b)
  | _, _ => nan

/-- JS multiplication; `NaN` propagates. -/
def mul : JSNum → JSNum → JSNum
  | num a, num b => num (a * b)
  | _, _ => nan

/-- JS division; `NaN` propagates.  (Division by zero yields an infinity
in JavaScript; the embedded code never divides by zero, and we map that
unreachable case to `nan`.) -/
def div : JSNum → JSNum → JSNum
  | num a, num b => if b = 0 then nan else num (a / b)
  | _, _ => nan

/-- `Math.round`: half-way cases round toward positive infinity, which
is `⌊q + 1/2⌋`; `Math.round(NaN)` is `NaN`. -/
def round : JSNum → JSNum
  | nan => nan
  | num q => num (⌊q + (1 : ℚ) / 2⌋ : ℤ)

/-- JS `isNaN` on a number. -/
def isNaNB : JSNum → Bool
  | nan => true
  | num _ => false

end JSNum

/-- A JavaScript value as far as the validators inspect one: a number, a
string, `undefined`, or anything else (`typeof` is all they look at). -/
inductive JSValue where
  | num (x : JSNum) : JSValue
  | str (s : String) : JSValue
  | undef : JSValue
  | other : JSValue
  deriving DecidableEq, Repr

namespace JSValue

/-- `typeof v === 'number'` (`NaN` is a number in JavaScript). -/
def isNumber : JSValue → Bool
  | num _ => true
  | _ => false

end JSValue

/-- Shorthand for a finite JS number value. -/
def jnum (q : ℚ) : JSValue := JSValue.num (JSNum.num q)

/-- The class of a thrown JavaScript error object.  The validators in
`src/utils/geo.js` construct every error with `new Error(...)`, so the
embedded code only produces `JSErrorClass.error`; the other classes
exist so that statements about `TypeError` / `RangeError` can be made. -/
inductive JSErrorClass where
  | error : JSErrorClass
  | typeError : JSErrorClass
  | rangeError : JSErrorClass
  deriving DecidableEq, Repr

/-- A thrown JavaScript error: its class and its message. -/
structure JSError where
  cls : JSErrorClass
  message : String
  deriving DecidableEq, Repr

/-- `validateCoordinates(latitude, longitude)` from `src/utils/geo.js`:

```js
function validateCoordinates(latitude, longitude) {
  if (typeof latitude !== 'number' || typeof longitude !== 'number') {
    throw new Error('Latitude and longitude must be numbers');
  }
  if (latitude < -90 || latitude > 90) {
    throw new Error('Latitude must be between -90 and 90 degrees');
  }
  if (longitude < -180 || longitude > 180) {
    throw new Error('Longitude must be between -180 and 180 degrees');
  }
  if (isNaN(latitude) || isNaN(longitude)) {
    throw new Error('Latitude and longitude must be valid numbers');
  }
}
```

The catch-all match arm is the `typeof` guard; on `NaN` arguments the
range comparisons are `false`, so `NaN` falls through to the final
`isNaN` check, exactly as in the source. -/
def validateCoordinates : JSValue → JSValue → Except JSError Unit
  | JSValue.num la, JSValue.num lo =>
      if JSNum.ltB la (JSNum.num (-90)) || JSNum.ltB (JSNum.num 90) la then
        Except.error ⟨JSErrorClass.error, "Latitude must be between -90 and 90 degrees"⟩
      else if JSNum.ltB lo (JSNum.num (-180)) || JSNum.ltB (JSNum.num 180) lo then
        Except.error ⟨JSErrorClass.error, "Longitude must be between -180 and 180 degrees"⟩
      else if JSNum.isNaNB la || JSNum.isNaNB lo then
        Except.error ⟨JSErrorClass.error, "Latitude and longitude must be valid numbers"⟩
      else
        Except.ok ()
  | _, _ =>
      Except.error ⟨JSErrorClass.error, "Latitude and longitude must be numbers"⟩

/-- `validateElevation(elevation)` from `src/utils/geo.js`:

```js
function validateElevation(elevation) {
  if (typeof elevation !== 'number') {
    throw new Error('Elevation must be a number');
  }
  if (elevation < -500 || elevation > 9000) {
    throw new Error('Elevation must be between -500 and 9000 meters');
  }
  if (isNaN(elevation)) {
    throw new Error('Elevation must be a valid number');
  }
}
``` -/
def validateElevation : JSValue → Except JSError Unit
  | JSValue.num e =>
      if JSNum.ltB e (JSNum.num (-500)) || JSNum.ltB (JSNum.num 9000) e then
        Except.error ⟨JSErrorClass.error, "Elevation must be between -500 and 9000 meters"⟩
      else if JSNum.isNaNB e then
        Except.error ⟨JSErrorClass.error, "Elevation must be a valid number"⟩
      else
        Except.ok ()
  | _ =>
      Except.error ⟨JSErrorClass.error, "Elevation must be a number"⟩

instance {ε α : Type} [DecidableEq ε] [DecidableEq α] : DecidableEq (Except ε α) := fun a b =>
  match a, b with
  | Except.ok x, Except.ok y =>
      if h : x = y then isTrue (by rw [h]) else isFalse (by intro hc; cases hc; exact h rfl)
  | Except.error x, Except.error y =>
      if h : x = y then isTrue (by rw [h]) else isFalse (by intro hc; cases hc; exact h rfl)
  | Except.ok _, Except.error _ => isFalse (by intro hc; cases hc)
  | Except.error _, Except.ok _ => isFalse (by intro hc; cases hc)

/-- Whether a call outcome is a thrown error. -/
def throwsB : Except JSError Unit → Bool
  | Except.ok _ => false
  | Except.error _ => true

/-- The class of the thrown error, if any. -/
def thrownClass : Except JSError Unit → Option JSErrorClass
  | Except.ok _ => none
  | Except.error e => some e.cls

example : validateCoordinates (jnum 90) (jnum 0) = Except.ok () := by decide
example : throwsB (validateCoordinates (jnum 91) (jnum 0)) = true := by decide
example : throwsB (validateCoordinates (JSValue.num JSNum.nan) (jnum 0)) = true := by decide

/-- A field of a JavaScript object as seen by a property access:
a number, a string, or `undefined` (missing key). -/
inductive JSField where
  | num (x : JSNum) : JSField
  | str (s : String) : JSField
  | undef : JSField
  deriving DecidableEq, Repr

/-- JS numeric coercion of a field used in arithmetic:
`undefined` coerces to `NaN`; the only strings stored in the embedded
objects are formatted durations such as `"14h 0m"`, which also coerce
to `NaN` (they are never used in arithmetic by the source). -/
def JSField.toNumber : JSField → JSNum
  | JSField.num x => x
  | JSField.str _ => JSNum.nan
  | JSField.undef => JSNum.nan

/-- Truncation toward zero, as `moment.diff` applies to a fractional
count of minutes. -/
def ratTrunc (q : ℚ) : ℤ := if 0 ≤ q then ⌊q⌋ else ⌈q⌉

/-- `_formatDuration(minutes)` from `src/core/astronomical.js`:
`Math.floor(minutes / 60)` hours (floor division) and `minutes % 60`
(JS remainder, sign of the dividend), rendered as `"<h>h <m>m"`. -/
def formatDurationJS (minutes : ℤ) : String :=
  toString (Int.fdiv minutes 60) ++ "h " ++ toString (Int.tmod minutes 60) ++ "m"

/-- The object literal returned by `calculateDayLength` in
`src/core/astronomical.js`.  Its keys are exactly `dayLength`,
`nightLength`, `dayLengthFormatted`, `nightLengthFormatted`. -/
structure DayLengthResult where
  dayLength : JSNum
  nightLength : JSNum
  dayLengthFormatted : String
  nightLengthFormatted : String
  deriving DecidableEq, Repr

/-- JS property access on a `calculateDayLength` result object: a key
that is not one of the four declared above yields `undefined`. -/
def DayLengthResult.get (r : DayLengthResult) : String → JSField
  | "dayLength" => JSField.num r.dayLength
  | "nightLength" => JSField.num r.nightLength
  | "dayLengthFormatted" => JSField.str r.dayLengthFormatted
  | "nightLengthFormatted" => JSField.str r.nightLengthFormatted
  | _ => JSField.undef

/-- `calculateDayLength` from `src/core/astronomical.js`:

```js
const dayLength = moment(times.sunset).diff(moment(times.sunrise), 'minutes');
const nightLength = 1440 - dayLength; // 1440 minutes in a day
return { dayLength, nightLength,
         dayLengthFormatted: this._formatDuration(dayLength),
         nightLengthFormatted: this._formatDuration(nightLength) };
```

The sunrise and sunset instants produced by the external SunCalc call
are taken as parameters (in milliseconds since the epoch). -/
def calculateDayLength (sunriseMs sunsetMs : ℚ) : DayLengthResult :=
  let dayLength : ℤ := ratTrunc ((sunsetMs - sunriseMs) / 60000)
  let nightLength : ℤ := 1440 - dayLength
  { dayLength := JSNum.num dayLength
    nightLength := JSNum.num nightLength
    dayLengthFormatted := formatDurationJS dayLength
    nightLengthFormatted := formatDurationJS nightLength }

/-- The tradition type configured on a `MuhuratCalculator`. -/
inductive Tradition where
  | standard : Tradition
  | extended : Tradition
  | smarta : Tradition
  | dynamic : Tradition
  deriving DecidableEq, Repr

/-- `moment(t).subtract(m, 'minutes').toDate()`: millisecond
arithmetic; subtracting a `NaN` duration makes the moment invalid, and
an invalid date has `NaN` milliseconds. -/
def subtractMinutes (t m : JSNum) : JSNum :=
  JSNum.sub t (JSNum.mul m (JSNum.num 60000))

/-- The object returned by `_calculateMuhuratTimes`: the window start,
its end, and the duration in minutes.  (The source key `end` is a
reserved word in Lean, so that field is named `endTime` here.)  Dates
are milliseconds since the epoch; `NaN` is an invalid date. -/
structure MuhuratTimes where
  start : JSNum
  endTime : JSNum
  durationMinutes : JSNum
  deriving DecidableEq, Repr

/-- `_calculateMuhuratTimes(sunrise, ...)` from `src/core/muhurat.js`
(lines 121-160), with the already-computed day-length object of the
`dynamic` branch taken as a parameter:

```js
switch (this.traditionType) {
  case 'extended':
    return { start: sunriseMoment.clone().subtract(120, 'minutes').toDate(),
             end: sunrise, durationMinutes: 120 };
  case 'smarta':
    return { start: sunriseMoment.clone().subtract(96, 'minutes').toDate(),
             end: sunrise, durationMinutes: 96 };
  case 'dynamic':
    const dayLength = this._calculateDayLength(latitude, longitude, date, timezone);
    const muhuratDuration = Math.round(dayLength.totalMinutes / 15);
    return { start: sunriseMoment.clone().subtract(muhuratDuration, 'minutes').toDate(),
             end: sunrise, durationMinutes: muhuratDuration };
  case 'standard':
  default:
    return { start: sunriseMoment.clone().subtract(96, 'minutes').toDate(),
             end: sunrise, durationMinutes: 96 };
}
```

Note that the `dynamic` branch reads the property `totalMinutes`, which
is not a key of the day-length object (see `DayLengthResult.get`). -/
def calculateMuhuratTimes (traditionType : Tradition) (sunrise : JSNum)
    (dayLen : DayLengthResult) : MuhuratTimes :=
  match traditionType with
  | Tradition.extended =>
      { start := subtractMinutes sunrise (JSNum.num 120)
        endTime := sunrise
        durationMinutes := JSNum.num 120 }
  | Tradition.smarta =>
      { start := subtractMinutes sunrise (JSNum.num 96)
        endTime := sunrise
        durationMinutes := JSNum.num 96 }
  | Tradition.dynamic =>
      let muhuratDuration :=
        JSNum.round (JSNum.div (JSField.toNumber (dayLen.get "totalMinutes")) (JSNum.num 15))
      { start := subtractMinutes sunrise muhuratDuration
        endTime := sunrise
        durationMinutes := muhuratDuration }
  | Tradition.standard =>
      { start := subtractMinutes sunrise (JSNum.num 96)
        endTime := sunrise
        durationMinutes := JSNum.num 96 }

/-- One element of a batch result: either the full calculation result,
or the object `{ date, error: error.message }` built in the `catch`. -/
inductive BatchItem (α δ : Type) where
  | success (result : α) : BatchItem α δ
  | failure (date : δ) (error : String) : BatchItem α δ
  deriving DecidableEq, Repr

/-- `calculateBatch(params, dates)` from `src/core/muhurat.js`
(lines 416-427):

```js
return dates.map(date => {
  try {
    return this.calculate({ ...params, date });
  } catch (error) {
    return { date, error: error.message };
  }
});
```

The per-date computation `this.calculate({ ...params, date })` is taken
as a parameter `calcOne` (`calc` is a Lean keyword): it returns a result or throws an error with a
message. -/
def calculateBatch {α δ : Type} (calcOne : δ → Except String α) (dates : List δ) :
    List (BatchItem α δ) :=
  dates.map fun date =>
    match calcOne date with
    | Except.ok r => BatchItem.success r
    | Except.error m => BatchItem.failure date m

/-- The precision tier configured on a calculator. -/
inductive Precision where
  | basic : Precision
  | high : Precision
  | maximum : Precision
  deriving DecidableEq, Repr

/-- `_calculateElevationCorrection(elevation)` from
`src/core/astronomical.js` (lines 376-380):

```js
return -1.76 * Math.sqrt(elevation) / 60; // Convert to minutes
```

The value is used as a count of minutes added to the sunrise time. -/
noncomputable def calculateElevationCorrection (elevation : ℝ) : ℝ :=
  -1.76 * Real.sqrt elevation / 60

/-- `_calculateBasicRefraction(latitude)` from `src/core/astronomical.js`:

```js
const standardRefraction = 34; // arcminutes
const latitudeCorrection = Math.cos(latitude * Math.PI / 180);
return (standardRefraction * latitudeCorrection * 4) / 60; // Convert to seconds
``` -/
noncomputable def calculateBasicRefraction (latitude : ℝ) : ℝ :=
  (34 * Real.cos (latitude * Real.pi / 180) * 4) / 60

/-- `_calculateHighPrecisionSunrise` from `src/core/astronomical.js`
(lines 349-364): starting from the SunCalc sunrise (taken as a
parameter, in milliseconds since the epoch), add the elevation
correction in minutes when `elevation > 0`, then subtract the basic
refraction in seconds. -/
noncomputable def calculateHighPrecisionSunrise (suncalcSunriseMs : ℝ)
    (latitude elevation : ℝ) : ℝ :=
  let afterElevation :=
    if 0 < elevation then
      suncalcSunriseMs + calculateElevationCorrection elevation * 60000
    else suncalcSunriseMs
  afterElevation - calculateBasicRefraction latitude * 1000

/-- `_calculateAtmosphericRefraction(pressure, temperature, latitude)`
from `src/core/astronomical.js`: the basic refraction scaled by the
pressure factor `pressure / 1013.25` and the temperature factor
`(273.15 + 15) / (273.15 + temperature)`. -/
noncomputable def calculateAtmosphericRefraction (pressure temperature latitude : ℝ) : ℝ :=
  calculateBasicRefraction latitude * (pressure / 1013.25) *
    ((273.15 + 15) / (273.15 + temperature))

/-- `_calculateMaximumPrecisionSunrise` from `src/core/astronomical.js`
(lines 321-344).  The `try` block's Astronomy Engine rise search is
external code; its outcome is taken as a parameter `engineResult`
(`Except.error ()` models the search throwing, e.g. at polar latitudes
with no rise event).  On success its result is corrected by the
atmospheric refraction in seconds; on failure the `catch` falls back to
the high-precision strategy. -/
noncomputable def calculateMaximumPrecisionSunrise (engineResult : Except Unit ℝ)
    (latitude elevation pressure temperature : ℝ) (suncalcSunriseMs : ℝ) : ℝ :=
  match engineResult with
  | Except.ok sunriseMs =>
      sunriseMs - calculateAtmosphericRefraction pressure temperature latitude * 1000
  | Except.error _ =>
      calculateHighPrecisionSunrise suncalcSunriseMs latitude elevation

/-- `calculateSunrise` from `src/core/astronomical.js`: dispatch on the
configured precision tier.  The function is total: it returns a time
for every input and never raises. -/
noncomputable def calculateSunrise (precision : Precision) (engineResult : Except Unit ℝ)
    (suncalcSunriseMs : ℝ) (latitude elevation pressure temperature : ℝ) : ℝ :=
  match precision with
  | Precision.maximum =>
      calculateMaximumPrecisionSunrise engineResult latitude elevation pressure temperature
        suncalcSunriseMs
  | Precision.high =>
      calculateHighPrecisionSunrise suncalcSunriseMs latitude elevation
  | Precision.basic => suncalcSunriseMs

/-- The refraction model configured on a `RefractionCalculator`. -/
inductive RefractionModel where
  | bennett : RefractionModel
  | saemundsson : RefractionModel
  | rigorous : RefractionModel
  deriving DecidableEq, Repr

/-- The body of `_bennettRefraction(altitude, pressure, temperature)`
(`src/core/refraction.js` lines 39-56) after its below-horizon guard:

```js
const h = Math.max(altitude, 0.01); // Avoid division by zero
const cotangent = 1 / Math.tan((h + 7.31 / (h + 4.4)) * Math.PI / 180);
const standardRefraction = cotangent;
const pressureCorrection = pressure / 1013.25;
const temperatureCorrection = 283.15 / (273.15 + temperature);
return standardRefraction * pressureCorrection * temperatureCorrection;
``` -/
noncomputable def bennettFormula (altitude pressure temperature : ℝ) : ℝ :=
  let h := max altitude 0.01
  let cotangent := 1 / Real.tan ((h + 7.31 / (h + 4.4)) * Real.pi / 180)
  cotangent * (pressure / 1013.25) * (283.15 / (273.15 + temperature))

/-- The body of `_saemundssonRefraction(altitude, pressure, temperature)`
(`src/core/refraction.js` lines 61-74) after its below-horizon guard:

```js
const h = Math.max(altitude, 0.01);
const refraction = 1.02 / Math.tan((h + 10.3 / (h + 5.11)) * Math.PI / 180);
const pressureCorrection = pressure / 1013.25;
const temperatureCorrection = 283.15 / (273.15 + temperature);
return refraction * pressureCorrection * temperatureCorrection;
``` -/
noncomputable def saemundssonFormula (altitude pressure temperature : ℝ) : ℝ :=
  let h := max altitude 0.01
  let refraction := 1.02 / Real.tan ((h + 10.3 / (h + 5.11)) * Real.pi / 180)
  refraction * (pressure / 1013.25) * (283.15 / (273.15 + temperature))

/-- `_saturatedVaporPressure(temperature)` (Magnus formula). -/
noncomputable def saturatedVaporPressure (temperature : ℝ) : ℝ :=
  6.1078 * Real.exp ((17.27 * temperature) / (temperature + 237.3))

/-- `_calculateRefractiveIndex(pressure, temperature, humidity)` from
`src/core/refraction.js` (lines 99-117). -/
noncomputable def calculateRefractiveIndex (pressure temperature humidity : ℝ) : ℝ :=
  let T := temperature + 273.15
  let nDry := 1 + (pressure / T) * (287.6155 + 1.62887 / T + 0.01360 / (T * T)) * 1e-6
  let waterVaporPressure := humidity * saturatedVaporPressure temperature
  let nWater := 1 + (waterVaporPressure / T) * (1792.0 - 67.2 / T) * 1e-6
  nDry + nWater - 1

/-- The body of `_rigorousRefraction(altitude, pressure, temperature,
humidity)` (`src/core/refraction.js` lines 79-94) after its
below-horizon guard:

```js
const h = Math.max(altitude, 0.01);
const n = this._calculateRefractiveIndex(pressure, temperature, humidity);
const beta = (h + 90) * Math.PI / 180;
const refraction = (n - 1) * Math.tan(Math.PI / 2 - beta) * 180 / Math.PI * 60;
return Math.max(refraction, 0);
``` -/
noncomputable def rigorousFormula (altitude pressure temperature humidity : ℝ) : ℝ :=
  let h := max altitude 0.01
  let n := calculateRefractiveIndex pressure temperature humidity
  let beta := (h + 90) * Real.pi / 180
  let refraction := (n - 1) * Real.tan (Real.pi / 2 - beta) * 180 / Real.pi * 60
  max refraction 0

/-- The above-horizon formula of the configured model.  In the source
each of `_bennettRefraction`, `_saemundssonRefraction` and
`_rigorousRefraction` starts with the same guard `if (altitude < -2)
return this._extrapolateRefraction(altitude)`; here that common guard
is factored into `calculateRefraction` below and this function is the
per-model remainder.  (Bennett and Saemundsson receive no humidity
argument in the source dispatch.) -/
noncomputable def refractionFormula (model : RefractionModel)
    (altitude pressure temperature humidity : ℝ) : ℝ :=
  match model with
  | RefractionModel.rigorous => rigorousFormula altitude pressure temperature humidity
  | RefractionModel.saemundsson => saemundssonFormula altitude pressure temperature
  | RefractionModel.bennett => bennettFormula altitude pressure temperature

/-- `_extrapolateRefraction(altitude)` from `src/core/refraction.js`
(lines 129-134):

```js
const horizonRefraction = this.calculateRefraction(0);
const gradient = horizonRefraction / 34; // Approximate gradient
return horizonRefraction + (altitude * gradient);
```

`this.calculateRefraction(0)` uses the default conditions
`(1013.25, 15, 0.5)`, and since `0 >= -2` it takes the formula branch,
so it is unfolded to `refractionFormula model 0 1013.25 15 0.5` (the
recursion bottoms out immediately). -/
noncomputable def extrapolateRefraction (model : RefractionModel) (altitude : ℝ) : ℝ :=
  let horizonRefraction := refractionFormula model 0 1013.25 15 0.5
  horizonRefraction + altitude * (horizonRefraction / 34)

/-- `calculateRefraction(apparentAltitude, pressure, temperature,
humidity)` from `src/core/refraction.js` (lines 23-33): the model
dispatch, with the below-horizon guard common to the three model
methods factored to the outside (dispatch and guard commute). -/
noncomputable def calculateRefraction (model : RefractionModel)
    (apparentAltitude pressure temperature humidity : ℝ) : ℝ :=
  if apparentAltitude < -2 then extrapolateRefraction model apparentAltitude
  else refractionFormula model apparentAltitude pressure temperature humidity

/-- `calculateSunriseRefraction(pressure, temperature, humidity)` from
`src/core/refraction.js` (lines 139-146):

```js
const geometricDepression = -0.833; // degrees (standard sunrise/sunset)
return this.calculateRefraction(geometricDepression, pressure, temperature, humidity);
``` -/
noncomputable def calculateSunriseRefraction (model : RefractionModel)
    (pressure temperature humidity : ℝ) : ℝ :=
  calculateRefraction model (-0.833) pressure temperature humidity

/-- The window contract of a fixed-duration tradition: for every sunrise
instant and any day-length data, the window ends at the sunrise, starts
`d` minutes earlier, lasts exactly `d` minutes, and starts strictly
before it ends. -/
def fixedWindow (traditionType : Tradition) (d : ℚ) : Prop :=
  ∀ (s : ℚ) (dl : DayLengthResult),
    (calculateMuhuratTimes traditionType (JSNum.num s) dl).endTime = JSNum.num s ∧
    (calculateMuhuratTimes traditionType (JSNum.num s) dl).start = JSNum.num (s - d * 60000) ∧
    (calculateMuhuratTimes traditionType (JSNum.num s) dl).durationMinutes = JSNum.num d ∧
    JSNum.ltB (calculateMuhuratTimes traditionType (JSNum.num s) dl).start
      (calculateMuhuratTimes traditionType (JSNum.num s) dl).endTime = true ∧
    JSNum.sub (calculateMuhuratTimes traditionType (JSNum.num s) dl).endTime
      (calculateMuhuratTimes traditionType (JSNum.num s) dl).start = JSNum.num (d * 60000)

/-- C1: for every sunrise instant (and any day-length data), the muhurat
window ends at the resolved sunrise under every tradition; under the
`standard` and `smarta` traditions the start is exactly 96 minutes before
the sunrise with `durationMinutes = 96`, and under `extended` 120 minutes
with `durationMinutes = 120`, so `start < end` and `end - start` is the
duration exactly. -/
theorem muhurat_window_end_at_sunrise_and_fixed_durations :
    (∀ (t : Tradition) (s : JSNum) (dl : DayLengthResult),
      (calculateMuhuratTimes t s dl).endTime = s) ∧
    fixedWindow Tradition.standard 96 ∧
    fixedWindow Tradition.smarta 96 ∧
    fixedWindow Tradition.extended 120 := by
  refine ⟨fun t s dl => ?_, ?_, ?_, ?_⟩
  · cases t <;> rfl
  all_goals
    intro s dl
    refine ⟨rfl, ?_, rfl, ?_, ?_⟩ <;>
      simp [calculateMuhuratTimes, subtractMinutes, JSNum.sub, JSNum.mul, JSNum.ltB]

/-- C2: under the `dynamic` tradition the code reads the property
`totalMinutes` of the day-length object, which does not exist, so the
computed duration is `Math.round(undefined / 15) = NaN` and the window
start is an invalid date — not `round(nightLength / 15)`.  Evaluated at
a day with an 840-minute day length (hence a 600-minute night): the
claimed duration is `round(600 / 15) = 40`, the code produces `NaN`. -/
theorem dynamic_duration_is_nan_not_night_fifteenth :
    (calculateDayLength 0 (840 * 60000)).nightLength = JSNum.num 600 ∧
    (calculateMuhuratTimes Tradition.dynamic (JSNum.num 0)
        (calculateDayLength 0 (840 * 60000))).durationMinutes = JSNum.nan ∧
    (calculateMuhuratTimes Tradition.dynamic (JSNum.num 0)
        (calculateDayLength 0 (840 * 60000))).start = JSNum.nan ∧
    JSNum.round (JSNum.div (JSNum.num 600) (JSNum.num 15)) = JSNum.num 40 ∧
    JSNum.nan ≠ JSNum.num 40 := by
  refine ⟨?_, rfl, rfl, ?_, by decide⟩
  · show JSNum.num ((1440 - ratTrunc ((840 * 60000 - 0) / 60000) : ℤ) : ℚ) = JSNum.num 600
    norm_num [ratTrunc]
  · show JSNum.round (JSNum.div (JSNum.num 600) (JSNum.num 15)) = JSNum.num 40
    norm_num [JSNum.round, JSNum.div]

/-- C4 (counterexample): `validateCoordinates` throws a plain `Error`
(class `error`), not a `TypeError`, on a non-numeric argument, and a
plain `Error`, not a `RangeError`, on an out-of-range latitude. -/
theorem validateCoordinates_throws_plain_error_counterexample :
    thrownClass (validateCoordinates (JSValue.str "invalid") (jnum 77)) =
      some JSErrorClass.error ∧
    some JSErrorClass.error ≠ some JSErrorClass.typeError ∧
    thrownClass (validateCoordinates (jnum 91) (jnum 77)) = some JSErrorClass.error ∧
    some JSErrorClass.error ≠ some JSErrorClass.rangeError := by
  refine ⟨rfl, by decide, ?_, by decide⟩
  decide

/-- C4 (amended): `validateCoordinates` fails whenever either argument
is not a finite number (non-numbers and `NaN` alike), and fails whenever
a numeric latitude lies outside `[-90, 90]` or a numeric longitude
outside `[-180, 180]`; every failure is a plain `Error` (the source
constructs each throw with `new Error(...)`), never a `TypeError` or
`RangeError`. -/
theorem validateCoordinates_failure_conditions (lat lon : JSValue) :
    ((¬ ∃ la : ℚ, lat = jnum la) ∨ (¬ ∃ lo : ℚ, lon = jnum lo) →
      ∃ m, validateCoordinates lat lon = Except.error ⟨JSErrorClass.error, m⟩) ∧
    (∀ la lo : ℚ, lat = jnum la → lon = jnum lo →
      (la < -90 ∨ 90 < la ∨ lo < -180 ∨ 180 < lo) →
      ∃ m, validateCoordinates lat lon = Except.error ⟨JSErrorClass.error, m⟩) := by
  constructor
  · intro hbad
    match lat, lon with
    | JSValue.num la, JSValue.num lo =>
        rcases hbad with h | h
        · match la with
          | JSNum.nan =>
              simp only [validateCoordinates]
              split_ifs <;> first | exact ⟨_, rfl⟩ | simp [JSNum.isNaNB] at *
          | JSNum.num q => exact absurd ⟨q, rfl⟩ h
        · match lo with
          | JSNum.nan =>
              simp only [validateCoordinates]
              split_ifs <;> first | exact ⟨_, rfl⟩ | simp [JSNum.isNaNB] at *
          | JSNum.num q => exact absurd ⟨q, rfl⟩ h
    | JSValue.num _, JSValue.str _ => exact ⟨_, rfl⟩
    | JSValue.num _, JSValue.undef => exact ⟨_, rfl⟩
    | JSValue.num _, JSValue.other => exact ⟨_, rfl⟩
    | JSValue.str _, _ => exact ⟨_, rfl⟩
    | JSValue.undef, _ => exact ⟨_, rfl⟩
    | JSValue.other, _ => exact ⟨_, rfl⟩
  · rintro la lo rfl rfl hout
    simp only [jnum, validateCoordinates]
    split_ifs with h1 h2 h3
    · exact ⟨_, rfl⟩
    · exact ⟨_, rfl⟩
    · exact ⟨_, rfl⟩
    · exfalso
      simp [JSNum.ltB, JSNum.isNaNB, decide_eq_true_iff] at h1 h2
      rcases hout with h | h | h | h
      · exact absurd h (not_lt.mpr h1.1)
      · exact absurd h (not_lt.mpr h1.2)
      · exact absurd h (not_lt.mpr h2.1)
      · exact absurd h (not_lt.mpr h2.2)

/-- C4 (witness): concrete uses of the amended theorem — a string
latitude fails with a plain `Error`, and latitude 91 fails with a plain
`Error`. -/
theorem validateCoordinates_failure_conditions_witness :
    (∃ m, validateCoordinates (JSValue.str "invalid") (jnum 77) =
      Except.error ⟨JSErrorClass.error, m⟩) ∧
    (∃ m, validateCoordinates (jnum 91) (jnum 77) =
      Except.error ⟨JSErrorClass.error, m⟩) :=
  ⟨(validateCoordinates_failure_conditions (JSValue.str "invalid") (jnum 77)).1
      (Or.inl (by rintro ⟨la, h⟩; cases h)),
   (validateCoordinates_failure_conditions (jnum 91) (jnum 77)).2 91 77 rfl rfl
      (Or.inr (Or.inl (by norm_num)))⟩

/-- C8: the validators accept the exact boundary values and reject the
first values beyond them: latitude 90 / -90 and longitude 180 / -180
pass, 91 / -91 / 181 / -181 throw; elevation -500 and 9000 pass,
-501 and 9001 throw. -/
theorem validators_accept_boundaries_reject_beyond :
    validateCoordinates (jnum 90) (jnum 0) = Except.ok () ∧
    validateCoordinates (jnum (-90)) (jnum 0) = Except.ok () ∧
    validateCoordinates (jnum 0) (jnum 180) = Except.ok () ∧
    validateCoordinates (jnum 0) (jnum (-180)) = Except.ok () ∧
    throwsB (validateCoordinates (jnum 91) (jnum 0)) = true ∧
    throwsB (validateCoordinates (jnum (-91)) (jnum 0)) = true ∧
    throwsB (validateCoordinates (jnum 0) (jnum 181)) = true ∧
    throwsB (validateCoordinates (jnum 0) (jnum (-181))) = true ∧
    validateElevation (jnum (-500)) = Except.ok () ∧
    validateElevation (jnum 9000) = Except.ok () ∧
    throwsB (validateElevation (jnum (-501))) = true ∧
    throwsB (validateElevation (jnum 9001)) = true := by
  decide

/-- C5: at the `maximum` tier, when the Astronomy Engine rise search
throws, `calculateSunrise` returns exactly the high-precision strategy
result; being a total function, the call completes without raising for
every input. -/
theorem calculateSunrise_maximum_falls_back_to_high
    (suncalcSunriseMs latitude elevation pressure temperature : ℝ) :
    calculateSunrise Precision.maximum (Except.error ()) suncalcSunriseMs
        latitude elevation pressure temperature =
      calculateHighPrecisionSunrise suncalcSunriseMs latitude elevation := rfl

/-- C6: the batch result has the input's length; the element at index
`i` is determined by the date at index `i` alone — a success carries the
full result, a failure carries that date and the error message; and
changing the per-date computation anywhere else never alters element
`i`, so one date's failure cannot abort the batch or corrupt other
dates.  `calculateBatch` is total, so it never throws for an item
failure. -/
theorem calculateBatch_isolated_ordered {α δ : Type}
    (calcOne : δ → Except String α) (dates : List δ) :
    (calculateBatch calcOne dates).length = dates.length ∧
    (∀ (i : ℕ) (d : δ), dates[i]? = some d →
      (calculateBatch calcOne dates)[i]? =
        some (match calcOne d with
              | Except.ok r => BatchItem.success r
              | Except.error m => BatchItem.failure d m)) ∧
    (∀ (calcTwo : δ → Except String α) (i : ℕ) (d : δ),
      dates[i]? = some d → calcOne d = calcTwo d →
      (calculateBatch calcOne dates)[i]? = (calculateBatch calcTwo dates)[i]?) := by
  refine ⟨List.length_map _ _, ?_, ?_⟩
  · intro i d h
    simp [calculateBatch, List.getElem?_map, h]
  · intro calcTwo i d h heq
    simp [calculateBatch, List.getElem?_map, h, heq]

/-- C6 (witness): a batch of three dates whose middle computation throws
`Invalid date format`: the result keeps length 3, item 1 is the embedded
failure for date 2, and items 0 and 2 are the successes. -/
theorem calculateBatch_isolated_ordered_witness :
    ([(1 : ℕ), 2, 3] : List ℕ)[1]? = some 2 ∧
    (calculateBatch
        (fun n : ℕ => if n = 2 then Except.error "Invalid date format" else Except.ok n)
        [1, 2, 3]).length = ([(1 : ℕ), 2, 3] : List ℕ).length ∧
    (calculateBatch
        (fun n : ℕ => if n = 2 then Except.error "Invalid date format" else Except.ok n)
        [1, 2, 3])[1]? = some (BatchItem.failure 2 "Invalid date format") ∧
    (calculateBatch
        (fun n : ℕ => if n = 2 then Except.error "Invalid date format" else Except.ok n)
        [1, 2, 3])[0]? = some (BatchItem.success 1) := by
  refine ⟨rfl,
    (calculateBatch_isolated_ordered _ [1, 2, 3]).1, ?_, ?_⟩
  · have h := (calculateBatch_isolated_ordered
      (fun n : ℕ => if n = 2 then Except.error "Invalid date format" else Except.ok n)
      [1, 2, 3]).2.1 1 2 rfl
    simpa using h
  · have h := (calculateBatch_isolated_ordered
      (fun n : ℕ => if n = 2 then Except.error "Invalid date format" else Except.ok n)
      [1, 2, 3]).2.1 0 1 rfl
    simpa using h

/-- C7 (counterexample): at 3600 m the elevation correction applied in
minutes is `-1.76 * sqrt(3600) / 60 = -1.76`, not the claimed
`-1.76 * sqrt(3600) = -105.6` minutes. -/
theorem elevation_correction_not_unscaled_minutes :
    calculateElevationCorrection 3600 = -1.76 ∧
    calculateElevationCorrection 3600 ≠ -1.76 * Real.sqrt 3600 := by
  have h : Real.sqrt 3600 = 60 := by
    rw [show (3600 : ℝ) = 60 ^ 2 by norm_num,
      Real.sqrt_sq (by norm_num : (0 : ℝ) ≤ 60)]
  constructor
  · unfold calculateElevationCorrection
    rw [h]; norm_num
  · unfold calculateElevationCorrection
    rw [h]; norm_num

/-- C7 (amended): the elevation correction the high tier applies (in
minutes, when `elevation > 0`) is `-1.76 * sqrt(elevation) / 60` — the
source divides the `-1.76 * sqrt(e)` figure by 60 — so the corrected
sunrise is the SunCalc time plus that many minutes, minus the basic
latitude refraction in seconds. -/
theorem elevation_correction_scaled_seconds (s latitude e : ℝ) (he : 0 < e) :
    calculateElevationCorrection e = -1.76 * Real.sqrt e / 60 ∧
    calculateHighPrecisionSunrise s latitude e =
      s + (-1.76 * Real.sqrt e / 60) * 60000 - calculateBasicRefraction latitude * 1000 := by
  refine ⟨rfl, ?_⟩
  unfold calculateHighPrecisionSunrise
  rw [if_pos he]
  rfl

/-- C7 (witness): the amended statement instantiated at 3600 m. -/
theorem elevation_correction_scaled_seconds_witness :
    (0 : ℝ) < 3600 ∧
    calculateHighPrecisionSunrise 0 0 3600 =
      0 + (-1.76 * Real.sqrt 3600 / 60) * 60000 - calculateBasicRefraction 0 * 1000 :=
  ⟨by norm_num, (elevation_correction_scaled_seconds 0 0 3600 (by norm_num)).2⟩

/-- C9: below -2 degrees every model extrapolates from the horizon
refraction at the default standard conditions, so the result does not
depend on the supplied pressure, temperature, or humidity. -/
theorem below_horizon_refraction_independent_of_conditions
    (model : RefractionModel) (a p1 t1 h1 p2 t2 h2 : ℝ) (ha : a < -2) :
    calculateRefraction model a p1 t1 h1 = calculateRefraction model a p2 t2 h2 := by
  unfold calculateRefraction
  rw [if_pos ha, if_pos ha]

/-- C9 (witness): at -3 degrees, two very different atmospheric
condition sets give the same Bennett result. -/
theorem below_horizon_refraction_independent_witness :
    (-3 : ℝ) < -2 ∧
    calculateRefraction RefractionModel.bennett (-3) 1013.25 15 0.5 =
      calculateRefraction RefractionModel.bennett (-3) 900 (-40) 0.9 :=
  ⟨by norm_num,
   below_horizon_refraction_independent_of_conditions RefractionModel.bennett
     (-3) 1013.25 15 0.5 900 (-40) 0.9 (by norm_num)⟩

/-- Any two altitudes in `[-2, 0.01]` produce the same refraction: the
below-horizon guard does not fire and the clamp `max altitude 0.01`
collapses the whole interval to `0.01`.  (Shared helper.) -/
theorem refraction_clamped_on_interval (model : RefractionModel)
    (a p t hum : ℝ) (h1 : -2 ≤ a) (h2 : a ≤ 0.01) :
    calculateRefraction model a p t hum = calculateRefraction model 0.01 p t hum := by
  unfold calculateRefraction
  rw [if_neg (not_lt.mpr (by linarith : (-2 : ℝ) ≤ a)),
    if_neg (by norm_num : ¬ (0.01 : ℝ) < -2)]
  cases model <;>
    simp [refractionFormula, bennettFormula, saemundssonFormula, rigorousFormula,
      max_eq_right h2, max_self]

/-- C10: under `bennett` and `saemundsson` the refraction is constant on
the altitude interval `[-2, 0.01]` for fixed atmospheric conditions, and
`calculateSunriseRefraction` — which evaluates at the -0.833-degree
depression — returns exactly the clamped 0.01-degree refraction, so the
depression angle has no effect on its result. -/
theorem clamped_refraction_constant_on_interval (p t hum : ℝ) :
    (∀ a1 a2 : ℝ, -2 ≤ a1 → a1 ≤ 0.01 → -2 ≤ a2 → a2 ≤ 0.01 →
      calculateRefraction RefractionModel.bennett a1 p t hum =
        calculateRefraction RefractionModel.bennett a2 p t hum ∧
      calculateRefraction RefractionModel.saemundsson a1 p t hum =
        calculateRefraction RefractionModel.saemundsson a2 p t hum) ∧
    calculateSunriseRefraction RefractionModel.bennett p t hum =
      calculateRefraction RefractionModel.bennett 0.01 p t hum ∧
    calculateSunriseRefraction RefractionModel.saemundsson p t hum =
      calculateRefraction RefractionModel.saemundsson 0.01 p t hum := by
  refine ⟨fun a1 a2 ha1 ha1' ha2 ha2' => ⟨?_, ?_⟩, ?_, ?_⟩
  · rw [refraction_clamped_on_interval _ _ _ _ _ ha1 ha1',
      refraction_clamped_on_interval _ _ _ _ _ ha2 ha2']
  · rw [refraction_clamped_on_interval _ _ _ _ _ ha1 ha1',
      refraction_clamped_on_interval _ _ _ _ _ ha2 ha2']
  · unfold calculateSunriseRefraction
    exact refraction_clamped_on_interval _ _ _ _ _ (by norm_num) (by norm_num)
  · unfold calculateSunriseRefraction
    exact refraction_clamped_on_interval _ _ _ _ _ (by norm_num) (by norm_num)

/-- C10 (witness): at standard conditions, the Bennett refraction agrees
at altitudes -0.5 and 0.01, and the sunrise refraction equals the
0.01-degree value. -/
theorem clamped_refraction_constant_witness :
    ((-2 : ℝ) ≤ -0.5 ∧ (-0.5 : ℝ) ≤ 0.01) ∧
    calculateRefraction RefractionModel.bennett (-0.5) 1013.25 15 0.5 =
      calculateRefraction RefractionModel.bennett 0.01 1013.25 15 0.5 ∧
    calculateSunriseRefraction RefractionModel.saemundsson 1013.25 15 0.5 =
      calculateRefraction RefractionModel.saemundsson 0.01 1013.25 15 0.5 :=
  ⟨⟨by norm_num, by norm_num⟩,
   ((clamped_refraction_constant_on_interval 1013.25 15 0.5).1 (-0.5) 0.01
      (by norm_num) (by norm_num) (by norm_num) (by norm_num)).1,
   (clamped_refraction_constant_on_interval 1013.25 15 0.5).2.2⟩

/-- C3 (counterexample): at an apparent altitude of 90 degrees and
standard conditions the Bennett model returns a negative value: the
argument `90 + 7.31 / 94.4` degrees lies just past 90, where the
cotangent is negative.  This refutes "always >= 0 for all altitudes at
or above -2 degrees" for the `bennett` model. -/
theorem bennett_refraction_negative_at_zenith :
    calculateRefraction RefractionModel.bennett 90 1013.25 15 0.5 < 0 := by
  unfold calculateRefraction
  rw [if_neg (by norm_num : ¬ (90 : ℝ) < -2)]
  simp only [refractionFormula, bennettFormula]
  rw [show max (90 : ℝ) 0.01 = 90 from max_eq_left (by norm_num)]
  have hpi := Real.pi_pos
  set x : ℝ := (90 + 7.31 / (90 + 4.4)) * Real.pi / 180 with hx
  have hhalf : Real.pi / 2 < x := by
    rw [hx]
    have h90 : (90 : ℝ) < 90 + 7.31 / (90 + 4.4) := by norm_num
    nlinarith
  have hlt : x < Real.pi := by
    rw [hx]
    have h180 : (90 : ℝ) + 7.31 / (90 + 4.4) < 180 := by norm_num
    nlinarith
  have hsin : 0 < Real.sin x :=
    Real.sin_pos_of_pos_of_lt_pi (lt_trans (by positivity) hhalf) hlt
  have hcos : Real.cos x < 0 :=
    Real.cos_neg_of_pi_div_two_lt_of_lt hhalf (by nlinarith)
  have htan : Real.tan x < 0 := by
    rw [Real.tan_eq_sin_div_cos]
    exact div_neg_of_pos_of_neg hsin hcos
  have hcot : 1 / Real.tan x < 0 := one_div_neg.mpr htan
  have hp : (0 : ℝ) < 1013.25 / 1013.25 := by norm_num
  have ht : (0 : ℝ) < 283.15 / (273.15 + 15) := by norm_num
  exact mul_neg_of_neg_of_pos (mul_neg_of_neg_of_pos hcot hp) ht

/-- For clamped altitudes up to 89.8 degrees the Bennett trigonometric
argument stays below 90 degrees.  (Shared helper.) -/
theorem bennett_angle_lt_ninety (h : ℝ) (h1 : 0.01 ≤ h) (h2 : h ≤ 89.8) :
    h + 7.31 / (h + 4.4) < 90 := by
  have hden : (0 : ℝ) < h + 4.4 := by linarith
  have key : (7.31 : ℝ) < (90 - h) * (h + 4.4) := by
    nlinarith [mul_nonneg (by linarith : (0 : ℝ) ≤ h - 0.01)
      (by linarith : (0 : ℝ) ≤ 89.8 - h)]
  have : 7.31 / (h + 4.4) < 90 - h := by
    rw [div_lt_iff₀ hden]; linarith
  linarith

/-- For clamped altitudes up to 89.8 degrees the Saemundsson
trigonometric argument stays below 90 degrees.  (Shared helper.) -/
theorem saemundsson_angle_lt_ninety (h : ℝ) (h1 : 0.01 ≤ h) (h2 : h ≤ 89.8) :
    h + 10.3 / (h + 5.11) < 90 := by
  have hden : (0 : ℝ) < h + 5.11 := by linarith
  have key : (10.3 : ℝ) < (90 - h) * (h + 5.11) := by
    nlinarith [mul_nonneg (by linarith : (0 : ℝ) ≤ h - 0.01)
      (by linarith : (0 : ℝ) ≤ 89.8 - h)]
  have : 10.3 / (h + 5.11) < 90 - h := by
    rw [div_lt_iff₀ hden]; linarith
  linarith

/-- C3 (amended): for every apparent altitude in `[-2, 89.8]` degrees
and atmospheric conditions in the validated ranges (pressure in
`[500, 1100]` mbar, temperature in `[-50, 50]` Celsius, humidity in
`[0, 1]`), `calculateRefraction` is non-negative under each of the three
models.  (Within about 0.11 degrees of the zenith the Bennett and
Saemundsson cotangent arguments pass 90 degrees and those two models
turn slightly negative — see the counterexample — while `rigorous`
clamps at 0, so the claimed bound holds away from that region.) -/
theorem calculateRefraction_nonneg (model : RefractionModel) (a p t hum : ℝ)
    (ha1 : -2 ≤ a) (ha2 : a ≤ 89.8) (hp1 : 500 ≤ p) (hp2 : p ≤ 1100)
    (ht1 : -50 ≤ t) (ht2 : t ≤ 50) (hh1 : 0 ≤ hum) (hh2 : hum ≤ 1) :
    0 ≤ calculateRefraction model a p t hum := by
  have hpi := Real.pi_pos
  unfold calculateRefraction
  rw [if_neg (not_lt.mpr ha1)]
  have hclamp1 : (0.01 : ℝ) ≤ max a 0.01 := le_max_right a 0.01
  have hclamp2 : max a 0.01 ≤ 89.8 := max_le ha2 (by norm_num)
  have hppos : (0 : ℝ) < p / 1013.25 := div_pos (by linarith) (by norm_num)
  have htpos : (0 : ℝ) < 283.15 / (273.15 + t) := div_pos (by norm_num) (by linarith)
  cases model with
  | rigorous =>
      simp only [refractionFormula, rigorousFormula]
      exact le_max_right _ 0
  | bennett =>
      simp only [refractionFormula, bennettFormula]
      set h : ℝ := max a 0.01 with hh
      have hden : (0 : ℝ) < h + 4.4 := by linarith
      have hApos : (0 : ℝ) < h + 7.31 / (h + 4.4) := by
        have := div_pos (by norm_num : (0 : ℝ) < 7.31) hden
        linarith
      have hAlt := bennett_angle_lt_ninety h hclamp1 hclamp2
      have hθpos : (0 : ℝ) < (h + 7.31 / (h + 4.4)) * Real.pi / 180 :=
        div_pos (mul_pos hApos hpi) (by norm_num)
      have hθlt : (h + 7.31 / (h + 4.4)) * Real.pi / 180 < Real.pi / 2 := by
        have := mul_lt_mul_of_pos_right hAlt hpi
        linarith
      have htan := Real.tan_pos_of_pos_of_lt_pi_div_two hθpos hθlt
      have hcot : (0 : ℝ) < 1 / Real.tan ((h + 7.31 / (h + 4.4)) * Real.pi / 180) :=
        one_div_pos.mpr htan
      exact le_of_lt (mul_pos (mul_pos hcot hppos) htpos)
  | saemundsson =>
      simp only [refractionFormula, saemundssonFormula]
      set h : ℝ := max a 0.01 with hh
      have hden : (0 : ℝ) < h + 5.11 := by linarith
      have hApos : (0 : ℝ) < h + 10.3 / (h + 5.11) := by
        have := div_pos (by norm_num : (0 : ℝ) < 10.3) hden
        linarith
      have hAlt := saemundsson_angle_lt_ninety h hclamp1 hclamp2
      have hθpos : (0 : ℝ) < (h + 10.3 / (h + 5.11)) * Real.pi / 180 :=
        div_pos (mul_pos hApos hpi) (by norm_num)
      have hθlt : (h + 10.3 / (h + 5.11)) * Real.pi / 180 < Real.pi / 2 := by
        have := mul_lt_mul_of_pos_right hAlt hpi
        linarith
      have htan := Real.tan_pos_of_pos_of_lt_pi_div_two hθpos hθlt
      have hr : (0 : ℝ) < 1.02 / Real.tan ((h + 10.3 / (h + 5.11)) * Real.pi / 180) :=
        div_pos (by norm_num) htan
      exact le_of_lt (mul_pos (mul_pos hr hppos) htpos)

/-- C3 (witness): the amended statement at altitude 0 and standard
conditions for the Bennett model. -/
theorem calculateRefraction_nonneg_witness :
    ((-2 : ℝ) ≤ 0 ∧ (0 : ℝ) ≤ 89.8 ∧ (500 : ℝ) ≤ 1013.25 ∧ (1013.25 : ℝ) ≤ 1100 ∧
      (-50 : ℝ) ≤ 15 ∧ (15 : ℝ) ≤ 50 ∧ (0 : ℝ) ≤ 0.5 ∧ (0.5 : ℝ) ≤ 1) ∧
    0 ≤ calculateRefraction RefractionModel.bennett 0 1013.25 15 0.5 :=
  ⟨by norm_num,
   calculateRefraction_nonneg RefractionModel.bennett 0 1013.25 15 0.5
     (by norm_num) (by norm_num) (by norm_num) (by norm_num)
     (by norm_num) (by norm_num) (by norm_num) (by norm_num)⟩
